import Mathlib

/-!
Verification development for the oshatori chat-connectivity layer.

This file gives a shallow embedding of the state-projection reducer
(`src/client/stateclient.rs`, `src/client/state.rs`) and of the
sockchat protocol client's pure decision logic
(`src/connection/sockchat.rs`), together with theorems settling the
frozen claims about them.

Rust `HashMap<String, V>` is modelled as an association list acted on
through `StrMap.get` / `StrMap.insert` / `StrMap.remove` /
`StrMap.modify`; `get` finds the first binding, `insert` replaces the
first binding or appends, `remove` drops the first binding, and
`modify` rewrites the value of the first binding (modelling
`get_mut` followed by a mutation, a no-op when the key is absent).
Since a `HashMap` holds each key at most once, acting on the first
binding is faithful.  `DateTime<Utc>` is modelled as an integer
timestamp; the tokio channel handles and websocket transport of the
protocol client are modelled by the pure data they carry.
-/

namespace Oshatori

/-- Association-list model of a Rust `HashMap<String, α>`. -/
abbrev StrMap (α : Type) := List (String × α)

namespace StrMap

/-- Model of `HashMap::get`: the first binding of the key, if any. -/
def get {α : Type} : StrMap α → String → Option α
  | [], _ => none
  | (k', v) :: rest, k => if k' = k then some v else get rest k

/-- Model of `HashMap::insert`: replace the first binding of the key, else append. -/
def insert {α : Type} : StrMap α → String → α → StrMap α
  | [], k, v => [(k, v)]
  | (k', v') :: rest, k, v =>
    if k' = k then (k, v) :: rest else (k', v') :: insert rest k v

/-- Model of `HashMap::remove`: drop the first binding of the key. -/
def remove {α : Type} : StrMap α → String → StrMap α
  | [], _ => []
  | (k', v') :: rest, k => if k' = k then rest else (k', v') :: remove rest k

/-- Model of `HashMap::get_mut(k)` followed by mutating the found value:
rewrite the first binding of the key, a no-op when the key is absent. -/
def modify {α : Type} : StrMap α → String → (α → α) → StrMap α
  | [], _, _ => []
  | (k', v') :: rest, k, f =>
    if k' = k then (k', f v') :: rest else (k', v') :: modify rest k f

end StrMap

/-- From `src/lib.rs`: `Profile`. The RGBA color `[u8; 4]` is a 4-tuple. -/
structure Profile where
  id : Option String
  username : Option String
  display_name : Option String
  color : Option (Nat × Nat × Nat × Nat)
  picture : Option String
deriving DecidableEq

/-- From `src/lib.rs`: `MessageStatus`. -/
inductive MessageStatus
  | Sent
  | Delivered
  | Edited
  | Deleted
  | Failed
deriving DecidableEq

/-- From `src/lib.rs`: `MessageType`. -/
inductive MessageType
  | CurrentUser
  | Normal
  | Server
  | Meta
deriving DecidableEq

/-- From `src/lib.rs`: `MessageFragment`. -/
inductive MessageFragment
  | Text (text : String)
  | Image (url : String) (mime : String)
  | Video (url : String) (mime : String)
  | Audio (url : String) (mime : String)
  | Url (url : String)
  | AssetId (id : String)
deriving DecidableEq

/-- From `src/lib.rs`: `Message`; the `DateTime<Utc>` timestamp is an integer. -/
structure Message where
  id : Option String
  sender_id : Option String
  content : List MessageFragment
  timestamp : Int
  message_type : MessageType
  status : MessageStatus
deriving DecidableEq

/-- From `src/lib.rs`: `AssetSource`. -/
inductive AssetSource
  | User
  | Meta
  | Server
deriving DecidableEq

/-- From `src/lib.rs`: `Asset`. -/
inductive Asset
  | Emote (id : Option String) (pattern : String) (src : String) (source : AssetSource)
  | Sticker (id : Option String) (pattern : String) (src : String) (source : AssetSource)
  | Audio (id : Option String) (pattern : String) (src : String) (source : AssetSource)
  | Command (id : Option String) (pattern : String) (args : List MessageFragment)
      (source : AssetSource)
deriving DecidableEq

/-- From `src/lib.rs`: `ChannelType`. -/
inductive ChannelType
  | Group
  | Direct
  | Broadcast
deriving DecidableEq

/-- From `src/lib.rs`: `Channel`. -/
structure Channel where
  id : String
  name : Option String
  channel_type : ChannelType
deriving DecidableEq

/-- From `src/lib.rs`: `FieldValue`. -/
inductive FieldValue
  | Text (value : Option String)
  | Password (value : Option String)
  | Group (fields : List Unit)
deriving DecidableEq

/-- From `src/lib.rs`: `AuthField`. (The nested `Group` field list is
irrelevant to every claim and kept opaque as `List Unit`.) -/
structure AuthField where
  name : String
  display : Option String
  value : FieldValue
  required : Bool
deriving DecidableEq

/-- From `src/connection/mod.rs`: `ChatEvent`. -/
inductive ChatEvent
  | New (channel_id : Option String) (message : Message)
  | Update (channel_id : Option String) (message_id : String) (new_message : Message)
  | Remove (channel_id : Option String) (message_id : String)
deriving DecidableEq

/-- From `src/connection/mod.rs`: `ChannelEvent`. -/
inductive ChannelEvent
  | New (channel : Channel)
  | Update (channel_id : String) (new_channel : Channel)
  | Remove (channel_id : String)
  | Join (channel_id : String)
  | Leave (channel_id : String)
  | Switch (channel_id : String)
  | Kick (channel_id : Option String) (reason : Option String) (ban : Bool)
  | Wipe (channel_id : Option String)
  | ClearList
deriving DecidableEq

/-- From `src/connection/mod.rs`: `UserEvent`, including the `Identify`
variant matched by `stateclient.rs` and emitted by `sockchat.rs`. -/
inductive UserEvent
  | New (channel_id : Option String) (user : Profile)
  | Update (channel_id : Option String) (user_id : String) (new_user : Profile)
  | Remove (channel_id : Option String) (user_id : String)
  | ClearList (channel_id : Option String)
  | Identify (user_id : String)
deriving DecidableEq

/-- From `src/connection/mod.rs`: `StatusEvent`. -/
inductive StatusEvent
  | Ping (artifact : Option String)
  | Connected (artifact : Option String)
  | Disconnected (artifact : Option String)
deriving DecidableEq

/-- From `src/connection/mod.rs`: `AssetEvent`. -/
inductive AssetEvent
  | New (channel_id : Option String) (asset : Asset)
  | Update (channel_id : Option String) (asset_id : String) (new_asset : Asset)
  | Remove (channel_id : Option String) (asset_id : String)
  | ClearList (channel_id : Option String)
deriving DecidableEq

/-- From `src/connection/mod.rs`: `ConnectionEvent`. -/
inductive ConnectionEvent
  | Chat (event : ChatEvent)
  | User (event : UserEvent)
  | Channel (event : ChannelEvent)
  | Status (event : StatusEvent)
  | Asset (event : AssetEvent)
deriving DecidableEq

/-- From `src/client/state.rs`: `ChannelState`. -/
structure ChannelState where
  channel : Channel
  users : StrMap Profile
  messages : List Message
  assets : StrMap Asset
deriving DecidableEq

/-- From `src/client/state.rs`: `ChannelState::new`. -/
def ChannelState.new (channel : Channel) : ChannelState :=
  { channel := channel, users := [], messages := [], assets := [] }

/-- From `src/client/state.rs`: `ConnectionStatus`. -/
inductive ConnectionStatus
  | Disconnected
  | Connecting
  | Connected
deriving DecidableEq

/-- From `src/client/state.rs`: `ConnectionState`. -/
structure ConnectionState where
  connection_id : String
  protocol_name : String
  status : ConnectionStatus
  channels : StrMap ChannelState
  current_channel : Option String
  global_users : StrMap Profile
  global_assets : StrMap Asset
  current_user_id : Option String
deriving DecidableEq

/-- From `src/client/state.rs`: `ConnectionState::new`. -/
def ConnectionState.new (connection_id protocol_name : String) : ConnectionState :=
  { connection_id := connection_id
    protocol_name := protocol_name
    status := ConnectionStatus.Disconnected
    channels := []
    current_channel := none
    global_users := []
    global_assets := []
    current_user_id := none }

/-- From `src/client/state.rs`: `ConnectionState::get_or_create_channel`.
The entry API inserts a fresh `ChannelState` for the id when absent. -/
def ConnectionState.get_or_create_channel (s : ConnectionState) (channel_id : String) :
    ConnectionState :=
  match s.channels.get channel_id with
  | some _ => s
  | none =>
    { s with
      channels := s.channels.insert channel_id
        (ChannelState.new
          { id := channel_id, name := none, channel_type := ChannelType.Group }) }

/-- From `src/client/stateclient.rs`: `get_asset_id`. -/
def get_asset_id (asset : Asset) : Option String :=
  match asset with
  | Asset.Emote id _ _ _ => id
  | Asset.Sticker id _ _ _ => id
  | Asset.Audio id _ _ _ => id
  | Asset.Command id _ _ _ => id

/-- From `src/client/stateclient.rs`, `ChatEvent::Update` arm: replace the
first message whose id matches (`iter_mut().find(..)` then assignment). -/
def updateFirstMessage : List Message → String → Message → List Message
  | [], _, _ => []
  | m :: rest, message_id, new_message =>
    if m.id = some message_id then new_message :: rest
    else m :: updateFirstMessage rest message_id new_message

/-- From `src/client/stateclient.rs`, `ChatEvent::Remove` arm:
`retain(|m| m.id.as_ref() != Some(&message_id))`. -/
def retainNonMatching : List Message → String → List Message
  | [], _ => []
  | m :: rest, message_id =>
    if m.id = some message_id then retainNonMatching rest message_id
    else m :: retainNonMatching rest message_id

namespace StateClient

/-- From `src/client/stateclient.rs` lines 77-87: `StateClient::process_status`. -/
def process_status (state : ConnectionState) (event : StatusEvent) : ConnectionState :=
  match event with
  | StatusEvent.Connected _ => { state with status := ConnectionStatus.Connected }
  | StatusEvent.Disconnected _ => { state with status := ConnectionStatus.Disconnected }
  | StatusEvent.Ping _ => state

/-- From `src/client/stateclient.rs` lines 89-133: `StateClient::process_channel`. -/
def process_channel (state : ConnectionState) (event : ChannelEvent) : ConnectionState :=
  match event with
  | ChannelEvent.New channel =>
    match state.channels.get channel.id with
    | some _ => state
    | none => { state with channels := state.channels.insert channel.id (ChannelState.new channel) }
  | ChannelEvent.Update channel_id new_channel =>
    { state with
      channels := state.channels.modify channel_id (fun cs => { cs with channel := new_channel }) }
  | ChannelEvent.Remove channel_id =>
    { state with channels := state.channels.remove channel_id }
  | ChannelEvent.Join channel_id =>
    state.get_or_create_channel channel_id
  | ChannelEvent.Leave channel_id =>
    if state.current_channel = some channel_id then { state with current_channel := none }
    else state
  | ChannelEvent.Switch channel_id =>
    { state with current_channel := some channel_id }
  | ChannelEvent.Kick _ _ _ =>
    { state with current_channel := none }
  | ChannelEvent.Wipe channel_id =>
    match channel_id with
    | some cid =>
      { state with channels := state.channels.modify cid (fun cs => { cs with messages := [] }) }
    | none => state
  | ChannelEvent.ClearList =>
    { state with channels := [] }

/-- From `src/client/stateclient.rs` lines 135-184: `StateClient::process_user`. -/
def process_user (state : ConnectionState) (event : UserEvent) : ConnectionState :=
  match event with
  | UserEvent.New channel_id user =>
    let user_id := user.id.getD ("")
    match channel_id with
    | some cid =>
      let state := state.get_or_create_channel cid
      { state with
        channels := state.channels.modify cid (fun ch => { ch with users := ch.users.insert user_id user }) }
    | none => { state with global_users := state.global_users.insert user_id user }
  | UserEvent.Update channel_id user_id new_user =>
    match channel_id with
    | some cid =>
      { state with
        channels := state.channels.modify cid (fun ch => { ch with users := ch.users.insert user_id new_user }) }
    | none => { state with global_users := state.global_users.insert user_id new_user }
  | UserEvent.Remove channel_id user_id =>
    match channel_id with
    | some cid =>
      { state with
        channels := state.channels.modify cid (fun ch => { ch with users := ch.users.remove user_id }) }
    | none => { state with global_users := state.global_users.remove user_id }
  | UserEvent.ClearList channel_id =>
    match channel_id with
    | some cid =>
      { state with channels := state.channels.modify cid (fun ch => { ch with users := [] }) }
    | none => { state with global_users := [] }
  | UserEvent.Identify user_id =>
    { state with current_user_id := some user_id }

/-- From `src/client/stateclient.rs` lines 186-227: `StateClient::process_chat`. -/
def process_chat (state : ConnectionState) (event : ChatEvent) : ConnectionState :=
  match event with
  | ChatEvent.New channel_id message =>
    match channel_id with
    | some cid =>
      let state := state.get_or_create_channel cid
      { state with
        channels := state.channels.modify cid (fun ch => { ch with messages := ch.messages ++ [message] }) }
    | none => state
  | ChatEvent.Update channel_id message_id new_message =>
    match channel_id with
    | some cid =>
      { state with
        channels := state.channels.modify cid
          (fun ch => { ch with messages := updateFirstMessage ch.messages message_id new_message }) }
    | none => state
  | ChatEvent.Remove channel_id message_id =>
    match channel_id with
    | some cid =>
      { state with
        channels := state.channels.modify cid
          (fun ch => { ch with messages := retainNonMatching ch.messages message_id }) }
    | none => state

/-- From `src/client/stateclient.rs` lines 229-275: `StateClient::process_asset`. -/
def process_asset (state : ConnectionState) (event : AssetEvent) : ConnectionState :=
  match event with
  | AssetEvent.New channel_id asset =>
    let asset_id := (get_asset_id asset).getD ("")
    match channel_id with
    | some cid =>
      let state := state.get_or_create_channel cid
      { state with
        channels := state.channels.modify cid (fun ch => { ch with assets := ch.assets.insert asset_id asset }) }
    | none => { state with global_assets := state.global_assets.insert asset_id asset }
  | AssetEvent.Update channel_id asset_id new_asset =>
    match channel_id with
    | some cid =>
      { state with
        channels := state.channels.modify cid (fun ch => { ch with assets := ch.assets.insert asset_id new_asset }) }
    | none => { state with global_assets := state.global_assets.insert asset_id new_asset }
  | AssetEvent.Remove channel_id asset_id =>
    match channel_id with
    | some cid =>
      { state with
        channels := state.channels.modify cid (fun ch => { ch with assets := ch.assets.remove asset_id }) }
    | none => { state with global_assets := state.global_assets.remove asset_id }
  | AssetEvent.ClearList channel_id =>
    match channel_id with
    | some cid =>
      { state with channels := state.channels.modify cid (fun ch => { ch with assets := [] }) }
    | none => { state with global_assets := [] }

/-- From `src/client/stateclient.rs` lines 52-75: the reducer dispatched by
`StateClient::process` once the tracked connection's state is found. -/
def process (state : ConnectionState) (event : ConnectionEvent) : ConnectionState :=
  match event with
  | ConnectionEvent.Status event => process_status state event
  | ConnectionEvent.Channel event => process_channel state event
  | ConnectionEvent.User event => process_user state event
  | ConnectionEvent.Chat event => process_chat state event
  | ConnectionEvent.Asset event => process_asset state event

/-- From `src/client/stateclient.rs` lines 303-318: `StateClient::get_user`,
the loop over `state.channels.values()`. -/
def searchChannelsForUser : StrMap ChannelState → String → Option Profile
  | [], _ => none
  | (_, channel) :: rest, user_id =>
    match channel.users.get user_id with
    | some user => some user
    | none => searchChannelsForUser rest user_id

/-- From `src/client/stateclient.rs` lines 303-318: `StateClient::get_user`
applied to the tracked state: the global map is consulted, then the channels. -/
def get_user (state : ConnectionState) (user_id : String) : Option Profile :=
  match state.global_users.get user_id with
  | some user => some user
  | none => searchChannelsForUser state.channels user_id

end StateClient

/-- From `src/client/stateclient.rs` lines 368-547: the standalone
`process_event` used by `StateClient::spawn_processor`. -/
def process_event (state : ConnectionState) (event : ConnectionEvent) : ConnectionState :=
  match event with
  | ConnectionEvent.Status event =>
    match event with
    | StatusEvent.Connected _ => { state with status := ConnectionStatus.Connected }
    | StatusEvent.Disconnected _ => { state with status := ConnectionStatus.Disconnected }
    | StatusEvent.Ping _ => state
  | ConnectionEvent.Channel event =>
    match event with
    | ChannelEvent.New channel =>
      match state.channels.get channel.id with
      | some _ => state
      | none => { state with channels := state.channels.insert channel.id (ChannelState.new channel) }
    | ChannelEvent.Update channel_id new_channel =>
      { state with
        channels := state.channels.modify channel_id (fun cs => { cs with channel := new_channel }) }
    | ChannelEvent.Remove channel_id =>
      { state with channels := state.channels.remove channel_id }
    | ChannelEvent.Join channel_id =>
      state.get_or_create_channel channel_id
    | ChannelEvent.Leave channel_id =>
      if state.current_channel = some channel_id then { state with current_channel := none }
      else state
    | ChannelEvent.Switch channel_id =>
      { state with current_channel := some channel_id }
    | ChannelEvent.Kick _ _ _ =>
      { state with current_channel := none }
    | ChannelEvent.Wipe channel_id =>
      match channel_id with
      | some cid =>
        { state with channels := state.channels.modify cid (fun cs => { cs with messages := [] }) }
      | none => state
    | ChannelEvent.ClearList =>
      { state with channels := [] }
  | ConnectionEvent.User event =>
    match event with
    | UserEvent.New channel_id user =>
      let uid := user.id.getD ("")
      match channel_id with
      | some cid =>
        let state := state.get_or_create_channel cid
        { state with
          channels := state.channels.modify cid (fun cs => { cs with users := cs.users.insert uid user }) }
      | none => { state with global_users := state.global_users.insert uid user }
    | UserEvent.Update channel_id user_id new_user =>
      match channel_id with
      | some cid =>
        { state with
          channels := state.channels.modify cid (fun cs => { cs with users := cs.users.insert user_id new_user }) }
      | none => { state with global_users := state.global_users.insert user_id new_user }
    | UserEvent.Remove channel_id user_id =>
      match channel_id with
      | some cid =>
        { state with
          channels := state.channels.modify cid (fun cs => { cs with users := cs.users.remove user_id }) }
      | none => { state with global_users := state.global_users.remove user_id }
    | UserEvent.ClearList channel_id =>
      match channel_id with
      | some cid =>
        { state with channels := state.channels.modify cid (fun cs => { cs with users := [] }) }
      | none => { state with global_users := [] }
    | UserEvent.Identify user_id =>
      { state with current_user_id := some user_id }
  | ConnectionEvent.Chat event =>
    match event with
    | ChatEvent.New channel_id message =>
      match channel_id with
      | some cid =>
        let state := state.get_or_create_channel cid
        { state with
          channels := state.channels.modify cid (fun cs => { cs with messages := cs.messages ++ [message] }) }
      | none => state
    | ChatEvent.Update channel_id message_id new_message =>
      match channel_id with
      | some cid =>
        { state with
          channels := state.channels.modify cid
            (fun cs => { cs with messages := updateFirstMessage cs.messages message_id new_message }) }
      | none => state
    | ChatEvent.Remove channel_id message_id =>
      match channel_id with
      | some cid =>
        { state with
          channels := state.channels.modify cid
            (fun cs => { cs with messages := retainNonMatching cs.messages message_id }) }
      | none => state
  | ConnectionEvent.Asset event =>
    match event with
    | AssetEvent.New channel_id asset =>
      let aid := (get_asset_id asset).getD ("")
      match channel_id with
      | some cid =>
        let state := state.get_or_create_channel cid
        { state with
          channels := state.channels.modify cid (fun cs => { cs with assets := cs.assets.insert aid asset }) }
      | none => { state with global_assets := state.global_assets.insert aid asset }
    | AssetEvent.Update channel_id asset_id new_asset =>
      match channel_id with
      | some cid =>
        { state with
          channels := state.channels.modify cid (fun cs => { cs with assets := cs.assets.insert asset_id new_asset }) }
      | none => { state with global_assets := state.global_assets.insert asset_id new_asset }
    | AssetEvent.Remove channel_id asset_id =>
      match channel_id with
      | some cid =>
        { state with
          channels := state.channels.modify cid (fun cs => { cs with assets := cs.assets.remove asset_id }) }
      | none => { state with global_assets := state.global_assets.remove asset_id }
    | AssetEvent.ClearList channel_id =>
      match channel_id with
      | some cid =>
        { state with channels := state.channels.modify cid (fun cs => { cs with assets := [] }) }
      | none => { state with global_assets := [] }

/-- Model of an outbound websocket wire frame produced by the protocol client. -/
inductive WireFrame
  | text (content : String)
deriving DecidableEq

namespace SockchatConnection

/-- From `src/connection/sockchat.rs` lines 758-781: `SockchatConnection::send`.
A `Chat::New` whose first content fragment is `Text` yields the wire text
frame handed to `ws_tx`; a `Chat::New` with any other (or no) leading
fragment returns the unsupported-format error; every other event falls
into the wildcard arm and returns `Ok` having produced no frame.  (The
`ws_tx.send` transport failure path concerns channel liveness, not the
format decision, and is elided.) -/
def send (event : ConnectionEvent) : Except String (Option WireFrame) :=
  match event with
  | ConnectionEvent.Chat (ChatEvent.New _ message) =>
    match message.content.head? with
    | some (MessageFragment.Text content) => Except.ok (some (WireFrame.text content))
    | _ => Except.error ("Unsupported message format")
  | _ => Except.ok none

/-- From `src/connection/sockchat.rs` lines 25-34: the `event_rx` half of the
connection, an `Option` holding the single-consumer receiver (modelled by
its presence). -/
structure State where
  event_rx : Option Unit
deriving DecidableEq

/-- From `src/connection/sockchat.rs` lines 37-49: `SockchatConnection::new`
stores the freshly created receiver in `event_rx`. -/
def State.new : State := { event_rx := some () }

/-- From `src/connection/sockchat.rs` lines 783-787:
`SockchatConnection::subscribe` is `self.event_rx.take().expect(..)`;
`none` models the panic on a second call. -/
def subscribe (c : State) : Option (Unit × State) :=
  match c.event_rx with
  | some rx => some (rx, { c with event_rx := none })
  | none => none

/-- Accumulator of the auth-field scan in `SockchatConnection::connect`
(`src/connection/sockchat.rs` lines 63-98). -/
structure AuthScan where
  url : Option String
  token : Option String
  uid : Option String
  pfp_url : Option String
  asset_api : Option String
deriving DecidableEq

/-- From `src/connection/sockchat.rs` lines 69-98: one step of the loop over
`self.auth`, matching on the field name and accepting only the value shape
the code destructures (`Text(Some _)` or, for the token, `Password(Some _)`). -/
def scanAuthField (acc : AuthScan) (field : AuthField) : AuthScan :=
  if field.name = "sockchat_url" then
    match field.value with
    | FieldValue.Text (some value) => { acc with url := some value }
    | _ => acc
  else if field.name = "token" then
    match field.value with
    | FieldValue.Password (some value) => { acc with token := some value }
    | _ => acc
  else if field.name = "uid" then
    match field.value with
    | FieldValue.Text (some value) => { acc with uid := some value }
    | _ => acc
  else if field.name = "pfp_url" then
    match field.value with
    | FieldValue.Text (some value) => { acc with pfp_url := some value }
    | _ => acc
  else if field.name = "asset_api" then
    match field.value with
    | FieldValue.Text (some value) => { acc with asset_api := some value }
    | _ => acc
  else acc

/-- Outcome of the validation phase of `connect` (lines 100-102), before any
network activity. -/
inductive ConnectValidation
  | configError (msg : String)
  | proceed (url : String) (token : String) (uid : String)
      (pfp_url : Option String) (asset_api : Option String)
deriving DecidableEq

/-- From `src/connection/sockchat.rs` lines 62-102: the auth-field scan
followed by the three `ok_or` checks of `connect`, in source order. -/
def connectValidate (auth : List AuthField) : ConnectValidation :=
  let scan := auth.foldl scanAuthField
    { url := none, token := none, uid := none, pfp_url := none, asset_api := none }
  match scan.url with
  | none => ConnectValidation.configError ("Missing URL field")
  | some url =>
    match scan.token with
    | none => ConnectValidation.configError ("Missing Token field")
    | some token =>
      match scan.uid with
      | none => ConnectValidation.configError ("Missing UID field")
      | some uid => ConnectValidation.proceed url token uid scan.pfp_url scan.asset_api

/-- Network operations `connect` can perform, in the order the code reaches
them: the websocket handshake (line 105), then the optional asset-catalog
HTTP fetch (lines 114-123). -/
inductive NetOp
  | wsConnect (url : String)
  | httpGetEmotes (url : String)
deriving DecidableEq

/-- From `src/connection/sockchat.rs` lines 114-119: the asset API base URL
is stripped of one trailing slash and `/emotes` is appended. -/
def assetApiUrl (api : String) : String :=
  (if api.endsWith ("/") then api.dropRight 1 else api) ++ "/emotes"

/-- Trace of network operations `connect` attempts: none when validation
fails, otherwise the websocket handshake followed by the catalog fetch when
an `asset_api` field was supplied. -/
def connectNetOps (auth : List AuthField) : List NetOp :=
  match connectValidate auth with
  | ConnectValidation.configError _ => []
  | ConnectValidation.proceed url _ _ _ asset_api =>
    NetOp.wsConnect url ::
      (match asset_api with
       | some api => [NetOp.httpGetEmotes (assetApiUrl api)]
       | none => [])

/-- Observation of the external `kanii_lib` `Color` through the only
operation the code applies to it, `as_rgb`. -/
structure KaniiColor where
  as_rgb : Option (Nat × Nat × Nat)
deriving DecidableEq

/-- From `src/utils/color.rs`: `kanii_to_rgba`; each channel is narrowed
`as u8` and the alpha byte is 0. -/
def kanii_to_rgba (color : KaniiColor) : Option (Nat × Nat × Nat × Nat) :=
  match color.as_rgb with
  | some (r, g, b) => some (r % 256, g % 256, b % 256, 0)
  | none => none

/-- Fields of the `JoinAuthPacket::GoodAuth` wire packet destructured by the
reader (`src/connection/sockchat.rs` lines 210-216). -/
structure GoodAuthPacket where
  user_id : String
  username : String
  color : KaniiColor
  channel_name : String

/-- Mutable state of the reader task (`src/connection/sockchat.rs`
lines 192-193): the `current_channel` cursor and the once-per-session
`assets_sent` flag. -/
structure ReaderState where
  current_channel : Option String
  assets_sent : Bool
deriving DecidableEq

/-- From `src/connection/sockchat.rs` lines 209-290: the
`JoinAuthPacket::GoodAuth` arm of the reader task.  Returns the events
published on `event_tx` in order, together with the updated reader state.
`pfp_url` and `channel_assets` are the values captured by the task at
spawn time. -/
def handleGoodAuth (pfp_url : Option String) (channel_assets : List Asset)
    (st : ReaderState) (packet : GoodAuthPacket) : List ConnectionEvent × ReaderState :=
  let current_channel : Option String := some packet.channel_name
  let pic : Option String :=
    match pfp_url with
    | some pfp_format => some (pfp_format.replace ("{uid}") packet.user_id)
    | none => none
  let fixedEvents : List ConnectionEvent :=
    [ ConnectionEvent.Status (StatusEvent.Connected none),
      ConnectionEvent.Channel (ChannelEvent.New
        { id := packet.channel_name
          name := current_channel
          channel_type := ChannelType.Group }),
      ConnectionEvent.Channel (ChannelEvent.Join packet.channel_name),
      ConnectionEvent.Channel (ChannelEvent.Switch packet.channel_name),
      ConnectionEvent.User (UserEvent.New current_channel
        { id := some packet.user_id
          username := some packet.username
          display_name := none
          color := kanii_to_rgba packet.color
          picture := pic }),
      ConnectionEvent.User (UserEvent.Identify packet.user_id) ]
  if !st.assets_sent && !channel_assets.isEmpty then
    (fixedEvents ++ channel_assets.map
        (fun asset => ConnectionEvent.Asset (AssetEvent.New current_channel asset)),
     { current_channel := current_channel, assets_sent := true })
  else
    (fixedEvents, { current_channel := current_channel, assets_sent := st.assets_sent })

end SockchatConnection

/-- Discriminator for events of the `Chat`, `User`, or `Asset` family that
carry an optional channel scope; yields that scope.  (`User::Identify`
carries no scope and the `Channel` and `Status` families are outside the
three families named by the frame claim.) -/
def eventScope : ConnectionEvent → Option (Option String)
  | ConnectionEvent.Chat (ChatEvent.New channel_id _) => some channel_id
  | ConnectionEvent.Chat (ChatEvent.Update channel_id _ _) => some channel_id
  | ConnectionEvent.Chat (ChatEvent.Remove channel_id _) => some channel_id
  | ConnectionEvent.User (UserEvent.New channel_id _) => some channel_id
  | ConnectionEvent.User (UserEvent.Update channel_id _ _) => some channel_id
  | ConnectionEvent.User (UserEvent.Remove channel_id _) => some channel_id
  | ConnectionEvent.User (UserEvent.ClearList channel_id) => some channel_id
  | ConnectionEvent.Asset (AssetEvent.New channel_id _) => some channel_id
  | ConnectionEvent.Asset (AssetEvent.Update channel_id _ _) => some channel_id
  | ConnectionEvent.Asset (AssetEvent.Remove channel_id _) => some channel_id
  | ConnectionEvent.Asset (AssetEvent.ClearList channel_id) => some channel_id
  | _ => none

/-- Discriminator: is the event a `Chat::New`? Used to state which events
`SockchatConnection::send` silently ignores. -/
def isChatNew : ConnectionEvent → Bool
  | ConnectionEvent.Chat (ChatEvent.New _ _) => true
  | _ => false

/-- Channel-scoped profile used by the `get_user` priority counterexample. -/
def channelProfile : Profile :=
  { id := some ("u1"), username := some ("alice"), display_name := none,
    color := none, picture := none }

/-- Global profile used by the `get_user` priority counterexample; differs
from `channelProfile` in its username. -/
def globalProfile : Profile :=
  { id := some ("u1"), username := some ("bob"), display_name := none,
    color := none, picture := none }

/-- Projection state holding user id u1 both in channel general's user map
(as `channelProfile`) and in the global user map (as `globalProfile`). -/
def conflictState : ConnectionState :=
  { connection_id := "conn1"
    protocol_name := "sockchat"
    status := ConnectionStatus.Disconnected
    channels :=
      [ ("general",
         { channel := { id := "general", name := none, channel_type := ChannelType.Group }
           users := [("u1", channelProfile)]
           messages := []
           assets := [] }) ]
    current_channel := none
    global_users := [("u1", globalProfile)]
    global_assets := []
    current_user_id := none }

/-- Sample profile for the lazy-creation counterexample. -/
def sampleProfile : Profile :=
  { id := some ("u9"), username := some ("carol"), display_name := none,
    color := none, picture := none }

/-- Sample message for the lazy-creation counterexample. -/
def sampleMessage : Message :=
  { id := some ("m9"), sender_id := some ("u9"),
    content := [MessageFragment.Text ("hello")],
    timestamp := 0, message_type := MessageType.Normal,
    status := MessageStatus.Sent }

/-- Sample asset for the lazy-creation counterexample. -/
def sampleAsset : Asset :=
  Asset.Emote (some ("smile")) (":(?:smile):") ("https://x/smile.png") AssetSource.Server

/-- Projection state with one channel g holding one message m1; used to
witness the unknown-message-id no-op claim. -/
def oneMessageState : ConnectionState :=
  { connection_id := "conn2"
    protocol_name := "sockchat"
    status := ConnectionStatus.Connected
    channels :=
      [ ("g",
         { channel := { id := "g", name := none, channel_type := ChannelType.Group }
           users := []
           messages := [{ id := some ("m1"), sender_id := some ("u1"),
                          content := [MessageFragment.Text ("hi")],
                          timestamp := 5, message_type := MessageType.Normal,
                          status := MessageStatus.Delivered }]
           assets := [] }) ]
    current_channel := some ("g")
    global_users := []
    global_assets := []
    current_user_id := none }

theorem StrMap.get_insert_self {α : Type} (m : StrMap α) (k : String) (v : α) :
    (m.insert k v).get k = some v := by
  induction m with
  | nil => simp [StrMap.insert, StrMap.get]
  | cons p rest ih =>
    obtain ⟨k', v'⟩ := p
    by_cases h : k' = k
    · simp [StrMap.insert, StrMap.get, h]
    · simp [StrMap.insert, StrMap.get, h, ih]

theorem StrMap.get_modify_self {α : Type} (m : StrMap α) (k : String) (f : α → α) :
    (m.modify k f).get k = (m.get k).map f := by
  induction m with
  | nil => simp [StrMap.modify, StrMap.get]
  | cons p rest ih =>
    obtain ⟨k', v'⟩ := p
    by_cases h : k' = k
    · simp [StrMap.modify, StrMap.get, h]
    · simp [StrMap.modify, StrMap.get, h, ih]

theorem StrMap.modify_fix {α : Type} (m : StrMap α) (k : String) (f : α → α)
    (h : ∀ v, m.get k = some v → f v = v) : m.modify k f = m := by
  induction m with
  | nil => rfl
  | cons p rest ih =>
    obtain ⟨k', v'⟩ := p
    by_cases hk : k' = k
    · have hv : f v' = v' := h v' (by simp [StrMap.get, hk])
      simp [StrMap.modify, hk, hv]
    · have ih' := ih (fun v hv => h v (by simpa [StrMap.get, hk] using hv))
      simp [StrMap.modify, hk, ih']

theorem StrMap.modify_idem {α : Type} (m : StrMap α) (k : String) (f : α → α)
    (h : ∀ v, f (f v) = f v) : (m.modify k f).modify k f = m.modify k f := by
  induction m with
  | nil => rfl
  | cons p rest ih =>
    obtain ⟨k', v'⟩ := p
    by_cases hk : k' = k
    · simp [StrMap.modify, hk, h]
    · simp [StrMap.modify, hk, ih]

theorem updateFirstMessage_of_no_match (msgs : List Message) (mid : String) (nm : Message)
    (h : ∀ m ∈ msgs, m.id ≠ some mid) : updateFirstMessage msgs mid nm = msgs := by
  induction msgs with
  | nil => rfl
  | cons m rest ih =>
    have hm : ¬ m.id = some mid := h m (List.mem_cons_self m rest)
    simp [updateFirstMessage, hm, ih (fun x hx => h x (List.mem_cons_of_mem m hx))]

theorem retainNonMatching_of_no_match (msgs : List Message) (mid : String)
    (h : ∀ m ∈ msgs, m.id ≠ some mid) : retainNonMatching msgs mid = msgs := by
  induction msgs with
  | nil => rfl
  | cons m rest ih =>
    have hm : ¬ m.id = some mid := h m (List.mem_cons_self m rest)
    simp [retainNonMatching, hm, ih (fun x hx => h x (List.mem_cons_of_mem m hx))]

/-- C10: for every `ConnectionState` and every `ConnectionEvent`, the reducer
invoked by `StateClient::process` through the `process_status` /
`process_channel` / `process_user` / `process_chat` / `process_asset`
methods and the standalone `process_event` function used by
`spawn_processor` produce identical resulting states. -/
theorem C10_process_eq_process_event (s : ConnectionState) (ev : ConnectionEvent) :
    StateClient.process s ev = process_event s ev := by
  cases ev with
  | Chat e => cases e <;> rfl
  | User e => cases e <;> rfl
  | Channel e => cases e <;> rfl
  | Status e => cases e <;> rfl
  | Asset e => cases e <;> rfl

/-- C9: applying a `Channel::Join` event twice in succession yields the same
projection state as applying it once, and likewise for `User::ClearList`
with any channel scope. -/
theorem C9_idempotence (s : ConnectionState) (cid : String) (scope : Option String) :
    StateClient.process
        (StateClient.process s (ConnectionEvent.Channel (ChannelEvent.Join cid)))
        (ConnectionEvent.Channel (ChannelEvent.Join cid))
      = StateClient.process s (ConnectionEvent.Channel (ChannelEvent.Join cid))
    ∧ StateClient.process
        (StateClient.process s (ConnectionEvent.User (UserEvent.ClearList scope)))
        (ConnectionEvent.User (UserEvent.ClearList scope))
      = StateClient.process s (ConnectionEvent.User (UserEvent.ClearList scope)) := by
  constructor
  · show (s.get_or_create_channel cid).get_or_create_channel cid = s.get_or_create_channel cid
    cases hget : s.channels.get cid with
    | some ch =>
      simp [ConnectionState.get_or_create_channel, hget]
    | none =>
      simp [ConnectionState.get_or_create_channel, hget, StrMap.get_insert_self]
  · cases scope with
    | none => rfl
    | some cid' =>
      have hmod := StrMap.modify_idem s.channels cid'
        (fun ch => ({ ch with users := [] } : ChannelState)) (fun ch => rfl)
      simp only [StateClient.process, StateClient.process_user, hmod]

/-- C3: every `Chat`, `User`, or `Asset` family event whose channel scope is
`None` leaves the channels map (hence every channel's users, messages, and
assets) unchanged, along with every other non-global field of the
projection: its effect is confined to the global maps. -/
theorem C3_scope_none_frame (s : ConnectionState) (ev : ConnectionEvent)
    (h : eventScope ev = some none) :
    (StateClient.process s ev).channels = s.channels
    ∧ (StateClient.process s ev).status = s.status
    ∧ (StateClient.process s ev).current_channel = s.current_channel
    ∧ (StateClient.process s ev).current_user_id = s.current_user_id
    ∧ (StateClient.process s ev).connection_id = s.connection_id
    ∧ (StateClient.process s ev).protocol_name = s.protocol_name := by
  cases ev with
  | Chat e =>
    cases e with
    | New channel_id m =>
      simp only [eventScope, Option.some.injEq] at h
      subst h
      exact ⟨rfl, rfl, rfl, rfl, rfl, rfl⟩
    | Update channel_id mid nm =>
      simp only [eventScope, Option.some.injEq] at h
      subst h
      exact ⟨rfl, rfl, rfl, rfl, rfl, rfl⟩
    | Remove channel_id mid =>
      simp only [eventScope, Option.some.injEq] at h
      subst h
      exact ⟨rfl, rfl, rfl, rfl, rfl, rfl⟩
  | User e =>
    cases e with
    | New channel_id u =>
      simp only [eventScope, Option.some.injEq] at h
      subst h
      exact ⟨rfl, rfl, rfl, rfl, rfl, rfl⟩
    | Update channel_id uid nu =>
      simp only [eventScope, Option.some.injEq] at h
      subst h
      exact ⟨rfl, rfl, rfl, rfl, rfl, rfl⟩
    | Remove channel_id uid =>
      simp only [eventScope, Option.some.injEq] at h
      subst h
      exact ⟨rfl, rfl, rfl, rfl, rfl, rfl⟩
    | ClearList channel_id =>
      simp only [eventScope, Option.some.injEq] at h
      subst h
      exact ⟨rfl, rfl, rfl, rfl, rfl, rfl⟩
    | Identify uid => simp [eventScope] at h
  | Channel e => cases e <;> simp [eventScope] at h
  | Status e => cases e <;> simp [eventScope] at h
  | Asset e =>
    cases e with
    | New channel_id a =>
      simp only [eventScope, Option.some.injEq] at h
      subst h
      exact ⟨rfl, rfl, rfl, rfl, rfl, rfl⟩
    | Update channel_id aid na =>
      simp only [eventScope, Option.some.injEq] at h
      subst h
      exact ⟨rfl, rfl, rfl, rfl, rfl, rfl⟩
    | Remove channel_id aid =>
      simp only [eventScope, Option.some.injEq] at h
      subst h
      exact ⟨rfl, rfl, rfl, rfl, rfl, rfl⟩
    | ClearList channel_id =>
      simp only [eventScope, Option.some.injEq] at h
      subst h
      exact ⟨rfl, rfl, rfl, rfl, rfl, rfl⟩

/-- Witness for C3 at a concrete scope-`None` event and state. -/
theorem C3_witness :
    (StateClient.process oneMessageState
        (ConnectionEvent.User (UserEvent.ClearList none))).channels
      = oneMessageState.channels
    ∧ (StateClient.process oneMessageState
        (ConnectionEvent.User (UserEvent.ClearList none))).status
      = oneMessageState.status
    ∧ (StateClient.process oneMessageState
        (ConnectionEvent.User (UserEvent.ClearList none))).current_channel
      = oneMessageState.current_channel
    ∧ (StateClient.process oneMessageState
        (ConnectionEvent.User (UserEvent.ClearList none))).current_user_id
      = oneMessageState.current_user_id
    ∧ (StateClient.process oneMessageState
        (ConnectionEvent.User (UserEvent.ClearList none))).connection_id
      = oneMessageState.connection_id
    ∧ (StateClient.process oneMessageState
        (ConnectionEvent.User (UserEvent.ClearList none))).protocol_name
      = oneMessageState.protocol_name :=
  C3_scope_none_frame oneMessageState (ConnectionEvent.User (UserEvent.ClearList none)) rfl

/-- C8: a `Chat::Update` or `Chat::Remove` whose message id matches no
message of the referenced channel (in particular when the channel is
absent, and in the scope-`None` case where no channel is referenced)
leaves the projection state completely unchanged. -/
theorem C8_unknown_message_id_noop (s : ConnectionState) (cid mid : String) (nm : Message)
    (h : ∀ ch, s.channels.get cid = some ch → ∀ m ∈ ch.messages, m.id ≠ some mid) :
    StateClient.process s (ConnectionEvent.Chat (ChatEvent.Update (some cid) mid nm)) = s
    ∧ StateClient.process s (ConnectionEvent.Chat (ChatEvent.Remove (some cid) mid)) = s
    ∧ StateClient.process s (ConnectionEvent.Chat (ChatEvent.Update none mid nm)) = s
    ∧ StateClient.process s (ConnectionEvent.Chat (ChatEvent.Remove none mid)) = s := by
  refine ⟨?_, ?_, rfl, rfl⟩
  · have hmod : s.channels.modify cid
        (fun ch => { ch with messages := updateFirstMessage ch.messages mid nm })
        = s.channels := by
      apply StrMap.modify_fix
      intro ch hch
      rw [updateFirstMessage_of_no_match ch.messages mid nm (h ch hch)]
    show ({ s with channels := _ } : ConnectionState) = s
    rw [hmod]
  · have hmod : s.channels.modify cid
        (fun ch => { ch with messages := retainNonMatching ch.messages mid })
        = s.channels := by
      apply StrMap.modify_fix
      intro ch hch
      rw [retainNonMatching_of_no_match ch.messages mid (h ch hch)]
    show ({ s with channels := _ } : ConnectionState) = s
    rw [hmod]

/-- Witness for C8: updating or removing the unknown id m2 in channel g of
`oneMessageState` (which holds only message m1) changes nothing. -/
theorem C8_witness :
    StateClient.process oneMessageState
        (ConnectionEvent.Chat (ChatEvent.Update (some ("g")) ("m2") sampleMessage))
      = oneMessageState
    ∧ StateClient.process oneMessageState
        (ConnectionEvent.Chat (ChatEvent.Remove (some ("g")) ("m2")))
      = oneMessageState
    ∧ StateClient.process oneMessageState
        (ConnectionEvent.Chat (ChatEvent.Update none ("m2") sampleMessage))
      = oneMessageState
    ∧ StateClient.process oneMessageState
        (ConnectionEvent.Chat (ChatEvent.Remove none ("m2")))
      = oneMessageState :=
  C8_unknown_message_id_noop oneMessageState ("g") ("m2") sampleMessage
    (by intro ch hch; cases hch; decide)

/-- Counterexample to C2 as stated: in `conflictState` the user id u1 is
bound to `channelProfile` in channel general's user map and to
`globalProfile` in the global map, yet `get_user` returns the global
profile, not the channel-scoped one. -/
theorem C2_counterexample :
    StateClient.get_user conflictState ("u1") = some globalProfile
    ∧ globalProfile ≠ channelProfile
    ∧ conflictState.channels.get ("general")
        = some { channel := { id := "general", name := none,
                              channel_type := ChannelType.Group }
                 users := [("u1", channelProfile)], messages := [], assets := [] }
    ∧ conflictState.global_users.get ("u1") = some globalProfile := by
  refine ⟨rfl, by decide, rfl, rfl⟩

/-- C2 (amended): `get_user` resolves a user id by searching the global user
map first and the channel-scoped user maps second; whenever the id is bound
in the global map — in particular when it is also bound in some channel —
the global profile is the one returned. -/
theorem C2_amended_global_first (s : ConnectionState) (uid : String) :
    (∀ gu, s.global_users.get uid = some gu → StateClient.get_user s uid = some gu)
    ∧ (s.global_users.get uid = none →
        StateClient.get_user s uid = StateClient.searchChannelsForUser s.channels uid) := by
  constructor
  · intro gu h
    simp [StateClient.get_user, h]
  · intro h
    simp [StateClient.get_user, h]

/-- Witness for C2 (amended) at the conflict state: the global profile wins. -/
theorem C2_witness :
    StateClient.get_user conflictState ("u1") = some globalProfile :=
  (C2_amended_global_first conflictState ("u1")).1 globalProfile rfl

/-- Counterexample to C4 as stated: on the empty projection, a `User::Update`,
`Chat::Update`, or `Asset::Update` scoped to the absent channel general
creates no channel — the channels map stays empty. -/
theorem C4_counterexample :
    (StateClient.process (ConnectionState.new ("c1") ("p"))
        (ConnectionEvent.User
          (UserEvent.Update (some ("general")) ("u9") sampleProfile))).channels = []
    ∧ (StateClient.process (ConnectionState.new ("c1") ("p"))
        (ConnectionEvent.Chat
          (ChatEvent.Update (some ("general")) ("m9") sampleMessage))).channels = []
    ∧ (StateClient.process (ConnectionState.new ("c1") ("p"))
        (ConnectionEvent.Asset
          (AssetEvent.Update (some ("general")) ("a9") sampleAsset))).channels = [] :=
  ⟨rfl, rfl, rfl⟩

/-- C4 (amended): `User::Update`, `Chat::Update`, and `Asset::Update` with
scope `Some(id)` mutate the channel only when it already exists; on a
projection where the channel is absent they are complete no-ops and do not
create it.  Lazy get-or-create applies to the New-family events instead:
`User::New` on an absent channel first creates it and then inserts the
user. -/
theorem C4_amended_update_no_create (s : ConnectionState) (cid uid : String) (u : Profile)
    (mid : String) (nm : Message) (aid : String) (na : Asset)
    (h : s.channels.get cid = none) :
    StateClient.process s (ConnectionEvent.User (UserEvent.Update (some cid) uid u)) = s
    ∧ StateClient.process s (ConnectionEvent.Chat (ChatEvent.Update (some cid) mid nm)) = s
    ∧ StateClient.process s (ConnectionEvent.Asset (AssetEvent.Update (some cid) aid na)) = s
    ∧ (StateClient.process s
          (ConnectionEvent.User (UserEvent.New (some cid) u))).channels.get cid
        = some { channel := { id := cid, name := none, channel_type := ChannelType.Group }
                 users := [(u.id.getD (""), u)]
                 messages := []
                 assets := [] } := by
  have hnone : ∀ f : ChannelState → ChannelState, s.channels.modify cid f = s.channels := by
    intro f
    apply StrMap.modify_fix
    intro v hv
    rw [h] at hv
    cases hv
  refine ⟨?_, ?_, ?_, ?_⟩
  · show ({ s with channels := _ } : ConnectionState) = s
    rw [hnone]
  · show ({ s with channels := _ } : ConnectionState) = s
    rw [hnone]
  · show ({ s with channels := _ } : ConnectionState) = s
    rw [hnone]
  · simp only [StateClient.process, StateClient.process_user,
      ConnectionState.get_or_create_channel, h]
    rw [StrMap.get_modify_self, StrMap.get_insert_self]
    rfl

/-- Witness for C4 (amended) on the empty projection and channel general. -/
theorem C4_witness :
    StateClient.process (ConnectionState.new ("c1") ("p"))
        (ConnectionEvent.User (UserEvent.Update (some ("general")) ("u9") sampleProfile))
      = ConnectionState.new ("c1") ("p")
    ∧ StateClient.process (ConnectionState.new ("c1") ("p"))
        (ConnectionEvent.Chat (ChatEvent.Update (some ("general")) ("m9") sampleMessage))
      = ConnectionState.new ("c1") ("p")
    ∧ StateClient.process (ConnectionState.new ("c1") ("p"))
        (ConnectionEvent.Asset (AssetEvent.Update (some ("general")) ("a9") sampleAsset))
      = ConnectionState.new ("c1") ("p")
    ∧ (StateClient.process (ConnectionState.new ("c1") ("p"))
          (ConnectionEvent.User (UserEvent.New (some ("general")) sampleProfile))).channels.get
            ("general")
        = some { channel := { id := "general", name := none,
                              channel_type := ChannelType.Group }
                 users := [("u9", sampleProfile)]
                 messages := []
                 assets := [] } :=
  C4_amended_update_no_create (ConnectionState.new ("c1") ("p")) ("general") ("u9")
    sampleProfile ("m9") sampleMessage ("a9") sampleAsset rfl

/-- Counterexample to C1 as stated: a `Status::Ping` event — which is not a
`Chat::New` with a leading text fragment — is accepted with `Ok` and no
wire frame, not rejected with the unsupported-format error. -/
theorem C1_counterexample :
    SockchatConnection.send (ConnectionEvent.Status (StatusEvent.Ping none))
      = Except.ok none := rfl

/-- C1 (amended): `send` relays a `Chat::New` whose leading content fragment
is `Text` as a plain wire text frame; a `Chat::New` whose leading fragment
is missing or not `Text` returns the unsupported-format error; every event
that is not a `Chat::New` is silently ignored, returning `Ok` with no
frame. -/
theorem C1_amended_send_classification (channel_id : Option String) (message : Message) :
    (∀ t, message.content.head? = some (MessageFragment.Text t) →
      SockchatConnection.send (ConnectionEvent.Chat (ChatEvent.New channel_id message))
        = Except.ok (some (WireFrame.text t)))
    ∧ ((∀ t, message.content.head? ≠ some (MessageFragment.Text t)) →
      SockchatConnection.send (ConnectionEvent.Chat (ChatEvent.New channel_id message))
        = Except.error ("Unsupported message format"))
    ∧ (∀ ev, isChatNew ev = false → SockchatConnection.send ev = Except.ok none) := by
  refine ⟨?_, ?_, ?_⟩
  · intro t ht
    simp [SockchatConnection.send, ht]
  · intro hno
    cases hm : message.content.head? with
    | none => simp [SockchatConnection.send, hm]
    | some frag =>
      cases frag with
      | Text t => exact absurd hm (hno t)
      | Image u m2 => simp [SockchatConnection.send, hm]
      | Video u m2 => simp [SockchatConnection.send, hm]
      | Audio u m2 => simp [SockchatConnection.send, hm]
      | Url u => simp [SockchatConnection.send, hm]
      | AssetId i => simp [SockchatConnection.send, hm]
  · intro ev hev
    cases ev with
    | Chat e =>
      cases e with
      | New cid m => simp [isChatNew] at hev
      | Update cid mid nm => rfl
      | Remove cid mid => rfl
    | User e => rfl
    | Channel e => rfl
    | Status e => rfl
    | Asset e => rfl

/-- Witness for C1 (amended): a text-leading `Chat::New` is relayed, an
empty-content `Chat::New` is the unsupported-format error, and a `Status`
event is ignored with `Ok`. -/
theorem C1_witness :
    SockchatConnection.send (ConnectionEvent.Chat (ChatEvent.New none sampleMessage))
      = Except.ok (some (WireFrame.text ("hello")))
    ∧ SockchatConnection.send
        (ConnectionEvent.Chat (ChatEvent.New none { sampleMessage with content := [] }))
      = Except.error ("Unsupported message format")
    ∧ SockchatConnection.send (ConnectionEvent.Status (StatusEvent.Connected none))
      = Except.ok none :=
  ⟨(C1_amended_send_classification none sampleMessage).1 ("hello") rfl,
   (C1_amended_send_classification none { sampleMessage with content := [] }).2.1
     (fun _ h => Option.noConfusion h),
   (C1_amended_send_classification none sampleMessage).2.2
     (ConnectionEvent.Status (StatusEvent.Connected none)) rfl⟩

/-- C6: `subscribe` hands out the single event receiver at most once: on a
fresh connection the first call succeeds, and after any successful call the
receiver slot is empty, so the next call hits the `expect` panic (modelled
as `none`). -/
theorem C6_subscribe_once :
    (SockchatConnection.subscribe SockchatConnection.State.new).isSome = true
    ∧ ∀ (c c' : SockchatConnection.State) (rx : Unit),
        SockchatConnection.subscribe c = some (rx, c') →
        SockchatConnection.subscribe c' = none := by
  refine ⟨rfl, ?_⟩
  intro c c' rx h
  cases c with
  | mk erx =>
    cases erx with
    | none => exact absurd h (by simp [SockchatConnection.subscribe])
    | some r =>
      simp only [SockchatConnection.subscribe, Option.some.injEq, Prod.mk.injEq] at h
      rw [← h.2]
      rfl

/-- Witness for C6: the fresh connection's first `subscribe` succeeds and the
drained connection's `subscribe` fails. -/
theorem C6_witness :
    (SockchatConnection.subscribe SockchatConnection.State.new).isSome = true
    ∧ SockchatConnection.subscribe { event_rx := none } = none :=
  ⟨C6_subscribe_once.1,
   C6_subscribe_once.2 SockchatConnection.State.new { event_rx := none } () rfl⟩

theorem scanFold_url_none (auth : List AuthField) :
    ∀ acc : SockchatConnection.AuthScan, acc.url = none →
      (∀ f ∈ auth, f.name = "sockchat_url" → ∀ v, f.value ≠ FieldValue.Text (some v)) →
      (auth.foldl SockchatConnection.scanAuthField acc).url = none := by
  induction auth with
  | nil =>
    intro acc hacc _
    simpa using hacc
  | cons f rest ih =>
    intro acc hacc h
    simp only [List.foldl_cons]
    refine ih (SockchatConnection.scanAuthField acc f) ?_
      (fun g hg => h g (List.mem_cons_of_mem f hg))
    unfold SockchatConnection.scanAuthField
    split_ifs with h1 h2 h3 h4 h5
    · cases hv : f.value with
      | Text ov =>
        cases ov with
        | some v => exact absurd hv (h f (List.mem_cons_self f rest) h1 v)
        | none => exact hacc
      | Password ov => exact hacc
      | Group g => exact hacc
    all_goals
      cases f.value with
      | Text ov => cases ov <;> exact hacc
      | Password ov => cases ov <;> exact hacc
      | Group g => exact hacc

theorem scanFold_token_none (auth : List AuthField) :
    ∀ acc : SockchatConnection.AuthScan, acc.token = none →
      (∀ f ∈ auth, f.name = "token" → ∀ v, f.value ≠ FieldValue.Password (some v)) →
      (auth.foldl SockchatConnection.scanAuthField acc).token = none := by
  induction auth with
  | nil =>
    intro acc hacc _
    simpa using hacc
  | cons f rest ih =>
    intro acc hacc h
    simp only [List.foldl_cons]
    refine ih (SockchatConnection.scanAuthField acc f) ?_
      (fun g hg => h g (List.mem_cons_of_mem f hg))
    unfold SockchatConnection.scanAuthField
    split_ifs with h1 h2 h3 h4 h5
    case pos =>
      cases f.value with
      | Text ov => cases ov <;> exact hacc
      | Password ov => cases ov <;> exact hacc
      | Group g => exact hacc
    case pos =>
      cases hv : f.value with
      | Password ov =>
        cases ov with
        | some v => exact absurd hv (h f (List.mem_cons_self f rest) h2 v)
        | none => exact hacc
      | Text ov => exact hacc
      | Group g => exact hacc
    all_goals
      cases f.value with
      | Text ov => cases ov <;> exact hacc
      | Password ov => cases ov <;> exact hacc
      | Group g => exact hacc

theorem scanFold_uid_none (auth : List AuthField) :
    ∀ acc : SockchatConnection.AuthScan, acc.uid = none →
      (∀ f ∈ auth, f.name = "uid" → ∀ v, f.value ≠ FieldValue.Text (some v)) →
      (auth.foldl SockchatConnection.scanAuthField acc).uid = none := by
  induction auth with
  | nil =>
    intro acc hacc _
    simpa using hacc
  | cons f rest ih =>
    intro acc hacc h
    simp only [List.foldl_cons]
    refine ih (SockchatConnection.scanAuthField acc f) ?_
      (fun g hg => h g (List.mem_cons_of_mem f hg))
    unfold SockchatConnection.scanAuthField
    split_ifs with h1 h2 h3 h4 h5
    case pos =>
      cases f.value with
      | Text ov => cases ov <;> exact hacc
      | Password ov => cases ov <;> exact hacc
      | Group g => exact hacc
    case pos =>
      cases f.value with
      | Text ov => cases ov <;> exact hacc
      | Password ov => cases ov <;> exact hacc
      | Group g => exact hacc
    case pos =>
      cases hv : f.value with
      | Text ov =>
        cases ov with
        | some v => exact absurd hv (h f (List.mem_cons_self f rest) h3 v)
        | none => exact hacc
      | Password ov => exact hacc
      | Group g => exact hacc
    all_goals
      cases f.value with
      | Text ov => cases ov <;> exact hacc
      | Password ov => cases ov <;> exact hacc
      | Group g => exact hacc

theorem connectNetOps_of_configError (auth : List AuthField) (msg : String)
    (h : SockchatConnection.connectValidate auth
      = SockchatConnection.ConnectValidation.configError msg) :
    SockchatConnection.connectNetOps auth = [] := by
  unfold SockchatConnection.connectNetOps
  rw [h]

/-- C7: when any required auth field — sockchat_url, token, or uid — is
missing from the auth list or supplied without a value of the expected
shape, `connect` fails at the validation stage with a configuration error
and attempts no network operation: neither the websocket handshake nor the
asset-catalog HTTP fetch appears in its network trace. -/
theorem C7_missing_auth_config_error (auth : List AuthField)
    (h : (∀ f ∈ auth, f.name = "sockchat_url" → ∀ v, f.value ≠ FieldValue.Text (some v))
      ∨ (∀ f ∈ auth, f.name = "token" → ∀ v, f.value ≠ FieldValue.Password (some v))
      ∨ (∀ f ∈ auth, f.name = "uid" → ∀ v, f.value ≠ FieldValue.Text (some v))) :
    (∃ msg, SockchatConnection.connectValidate auth
        = SockchatConnection.ConnectValidation.configError msg)
    ∧ SockchatConnection.connectNetOps auth = [] := by
  have hcfg : ∃ msg, SockchatConnection.connectValidate auth
      = SockchatConnection.ConnectValidation.configError msg := by
    rcases h with hu | ht | hi
    · have hurl := scanFold_url_none auth
        { url := none, token := none, uid := none, pfp_url := none, asset_api := none }
        rfl hu
      exact ⟨_, by simp only [SockchatConnection.connectValidate]; rw [hurl]⟩
    · have htok := scanFold_token_none auth
        { url := none, token := none, uid := none, pfp_url := none, asset_api := none }
        rfl ht
      cases hurl : (auth.foldl SockchatConnection.scanAuthField
          { url := none, token := none, uid := none, pfp_url := none,
            asset_api := none }).url with
      | none => exact ⟨_, by simp only [SockchatConnection.connectValidate]; rw [hurl]⟩
      | some u => exact ⟨_, by simp only [SockchatConnection.connectValidate]; rw [hurl, htok]⟩
    · have huid := scanFold_uid_none auth
        { url := none, token := none, uid := none, pfp_url := none, asset_api := none }
        rfl hi
      cases hurl : (auth.foldl SockchatConnection.scanAuthField
          { url := none, token := none, uid := none, pfp_url := none,
            asset_api := none }).url with
      | none => exact ⟨_, by simp only [SockchatConnection.connectValidate]; rw [hurl]⟩
      | some u =>
        cases htok : (auth.foldl SockchatConnection.scanAuthField
            { url := none, token := none, uid := none, pfp_url := none,
              asset_api := none }).token with
        | none =>
          exact ⟨_, by simp only [SockchatConnection.connectValidate]; rw [hurl, htok]⟩
        | some t =>
          exact ⟨_, by
            simp only [SockchatConnection.connectValidate]; rw [hurl, htok, huid]⟩
  obtain ⟨msg, hmsg⟩ := hcfg
  exact ⟨⟨msg, hmsg⟩, connectNetOps_of_configError auth msg hmsg⟩

/-- Witness for C7 at the empty auth list: every required field is missing,
validation reports a configuration error and the network trace is empty. -/
theorem C7_witness :
    (∃ msg, SockchatConnection.connectValidate []
        = SockchatConnection.ConnectValidation.configError msg)
    ∧ SockchatConnection.connectNetOps [] = [] :=
  C7_missing_auth_config_error []
    (Or.inl (fun f hf => absurd hf (List.not_mem_nil f)))

/-- C5: every successful-join (`GoodAuth`) packet handled by the reader
publishes exactly, in order: `Status::Connected`, `Channel::New` for the
joined channel, `Channel::Join`, `Channel::Switch`, `User::New` for the
local user, `User::Identify` for the local user, followed by one
`Asset::New` per catalog asset fetched during connect — the asset suffix
appearing only when it has not been sent before and the catalog is
non-empty, and never again on any later successful join of the same
session. -/
theorem C5_good_auth_events (pfp_url : Option String) (channel_assets : List Asset)
    (st : SockchatConnection.ReaderState) (p p2 : SockchatConnection.GoodAuthPacket) :
    (SockchatConnection.handleGoodAuth pfp_url channel_assets st p).1
      = [ ConnectionEvent.Status (StatusEvent.Connected none),
          ConnectionEvent.Channel (ChannelEvent.New
            { id := p.channel_name, name := some p.channel_name,
              channel_type := ChannelType.Group }),
          ConnectionEvent.Channel (ChannelEvent.Join p.channel_name),
          ConnectionEvent.Channel (ChannelEvent.Switch p.channel_name),
          ConnectionEvent.User (UserEvent.New (some p.channel_name)
            { id := some p.user_id, username := some p.username, display_name := none,
              color := SockchatConnection.kanii_to_rgba p.color,
              picture := pfp_url.map (fun fmt => fmt.replace ("{uid}") p.user_id) }),
          ConnectionEvent.User (UserEvent.Identify p.user_id) ]
        ++ (if st.assets_sent = false ∧ channel_assets ≠ [] then
              channel_assets.map (fun a =>
                ConnectionEvent.Asset (AssetEvent.New (some p.channel_name) a))
            else [])
    ∧ (SockchatConnection.handleGoodAuth pfp_url channel_assets
          (SockchatConnection.handleGoodAuth pfp_url channel_assets st p).2 p2).1
      = [ ConnectionEvent.Status (StatusEvent.Connected none),
          ConnectionEvent.Channel (ChannelEvent.New
            { id := p2.channel_name, name := some p2.channel_name,
              channel_type := ChannelType.Group }),
          ConnectionEvent.Channel (ChannelEvent.Join p2.channel_name),
          ConnectionEvent.Channel (ChannelEvent.Switch p2.channel_name),
          ConnectionEvent.User (UserEvent.New (some p2.channel_name)
            { id := some p2.user_id, username := some p2.username, display_name := none,
              color := SockchatConnection.kanii_to_rgba p2.color,
              picture := pfp_url.map (fun fmt => fmt.replace ("{uid}") p2.user_id) }),
          ConnectionEvent.User (UserEvent.Identify p2.user_id) ] := by
  obtain ⟨cc, sent⟩ := st
  cases pfp_url with
  | none =>
    cases sent <;> cases channel_assets with
    | nil => simp [SockchatConnection.handleGoodAuth]
    | cons a rest => simp [SockchatConnection.handleGoodAuth]
  | some fmt =>
    cases sent <;> cases channel_assets with
    | nil => simp [SockchatConnection.handleGoodAuth]
    | cons a rest => simp [SockchatConnection.handleGoodAuth]

end Oshatori
